import Mathlib

/-!
Shallow embedding of `src/server/bridge.py` and `src/server/token_server.py`
(the session bridge of a LiveKit voice assistant and its token issuer).

External HTTP traffic is modelled by passing the service's response (or the
raised network exception) as an explicit argument to each tool function; the
function then computes exactly what the Python code computes from it.  Python
truthiness (`x or d`, `if s and s.strip():`) is modelled explicitly.
-/

namespace Bridge

/-- Model of a Todoist `due` JSON object: only its `"string"` key is read by
the code (`(t.get("due") or {}).get("string")`). -/
structure DueObj where
  string : Option String
deriving Repr, DecidableEq

/-- Model of a Todoist task JSON object as the bridge reads it: each field is
`none` when the key is absent (Python `dict.get` returning `None`). -/
structure TaskJson where
  id : Option String
  content : Option String
  due : Option DueObj
  project_id : Option String
  priority : Option Int
  url : Option String
deriving Repr, DecidableEq

/-- Outbound JSON body built by `create_reminder` (bridge.py lines 91-95):
`content` and `priority` always present, `due_string` and `project_id`
only when their argument is truthy and has a non-empty strip. -/
structure CreateBody where
  content : String
  priority : Int
  due_string : Option String
  project_id : Option String
deriving Repr, DecidableEq

/-- The error body seen on the non-2xx path of `create_reminder`
(lines 109-112): `error` is the value under the `"error"` key of the parsed
JSON (when the body fails to parse the code substitutes `{"error": r.text}`,
i.e. `error = some r.text`); `rendered` is the textual rendering of the whole
parsed object, used when the `"error"` value is missing or falsy
(`err.get('error') or err`). -/
structure ErrInfo where
  error : Option String
  rendered : String
deriving Repr, DecidableEq

/-- Environment model of the HTTP call made by `create_reminder`: either
`requests.post` raises a `RequestException`, or a response arrives with a
status code and a body, readable as an error object (status >= 400 path) or
as a task object (success path). -/
inductive CreateHttp where
  | exn (e : String)
  | resp (status : Nat) (err : ErrInfo) (task : TaskJson)
deriving Repr, DecidableEq

/-- Python `p or 1` on an `int | None`: `None` and `0` are falsy. -/
def pyOr1 : Option Int → Int
  | none => 1
  | some p => if p = 0 then 1 else p

/-- Python `str.strip()`: the string with leading and trailing whitespace
removed (written over the character list so it is fully executable). -/
def pyStrip (s : String) : String :=
  ⟨((s.data.dropWhile Char.isWhitespace).reverse.dropWhile
      Char.isWhitespace).reverse⟩

/-- Python `if s and s.strip(): use s.strip()` on a `str | None`:
yields the stripped string when the value is present and not
whitespace-only, otherwise nothing. -/
def truthyStrip : Option String → Option String
  | none => none
  | some s => if pyStrip s = "" then none else some (pyStrip s)

/-- Python f-string rendering of a `str | None` (`None` prints as "None"). -/
def pyStr : Option String → String
  | none => "None"
  | some s => s

/-- Observable outcome of one `create_reminder` call: the outbound request
body (`none` when no HTTP request was made) and the returned string.  The
function is total: every path of the Python code `return`s. -/
structure CreateOutcome where
  request : Option CreateBody
  result : String
deriving Repr, DecidableEq

/-- Sanitisation and body construction of `create_reminder` (bridge.py lines
85-95): `prio = priority or 1`, raised to 1, capped at 4; `due_string` /
`project_id` included only when truthy with a non-empty strip. -/
def buildBody (text : String) (due : Option String)
    (project_id : Option String) (priority : Option Int) : CreateBody :=
  let prio0 := pyOr1 priority
  let prio1 := if prio0 < 1 then 1 else prio0
  let prio := if prio1 > 4 then 4 else prio1
  { content := text, priority := prio,
    due_string := truthyStrip due,
    project_id := truthyStrip project_id }

/-- `VoiceAssistant.create_reminder` (bridge.py lines 59-120).  Arguments are
`Option`s at the boundary (`none` = omitted / `None`); `http` supplies the
external service's behaviour for the single `requests.post`. -/
def create_reminder (content : Option String) (due : Option String)
    (project_id : Option String) (priority : Option Int)
    (http : CreateHttp) : CreateOutcome :=
  let text := pyStrip (content.getD "")
  if text = "" then
    { request := none,
      result := "I need a task description (e.g., \x27Call Alice\x27)." }
  else
    let body : CreateBody := buildBody text due project_id priority
    match http with
    | CreateHttp.exn e =>
        { request := some body, result := "Todoist error: " ++ e }
    | CreateHttp.resp status err task =>
        if status ≥ 400 then
          let msg := match err.error with
            | some e => if e = "" then err.rendered else e
            | none => err.rendered
          { request := some body,
            result := "Todoist rejected the request: " ++ msg }
        else
          let whenStr := match task.due with
            | some d => d.string.getD "no date"
            | none => "no date"
          { request := some body,
            result := "Created reminder: â€œ" ++ pyStr task.content ++ "â€ for "
              ++ whenStr ++ " (id " ++ pyStr task.id ++ ")." }

/-- Integer clamp, the specification's `clamp(p, 1, 4)`. -/
def clamp (p lo hi : Int) : Int := max lo (min hi p)

/-- Compact record appended per task by `list_reminders` (bridge.py lines
156-166): the seven keys of the returned dict, with `completed` always
`False` on the open-tasks endpoint. -/
structure TaskRecord where
  id : Option String
  content : Option String
  due : Option String
  project_id : Option String
  priority : Option Int
  url : Option String
  completed : Bool
deriving Repr, DecidableEq

/-- The per-task dict built in the loop of `list_reminders`. -/
def toRecord (t : TaskJson) : TaskRecord :=
  { id := t.id, content := t.content,
    due := match t.due with | some d => d.string | none => none,
    project_id := t.project_id, priority := t.priority, url := t.url,
    completed := false }

/-- Query parameters of the list request (bridge.py lines 140-144): each key
is added only when its argument is truthy (non-`None` and non-empty). -/
structure ListParams where
  project_id : Option String
  filter : Option String
deriving Repr, DecidableEq

/-- Construction of the `params` dict of `list_reminders`. -/
def listParams (project_id : Option String) (filter : Option String) :
    ListParams :=
  { project_id := match project_id with
      | some s => if s = "" then none else some s
      | none => none,
    filter := match filter with
      | some s => if s = "" then none else some s
      | none => none }

/-- Python `limit or 10` on an `int | None`: `None` and `0` are falsy. -/
def pyOr10 : Option Int → Int
  | none => 10
  | some k => if k = 0 then 10 else k

/-- Python list slice `xs[:k]` with an `int` bound: a nonnegative `k` takes
the first `k` elements, a negative `k` drops the last `-k`. -/
def pySliceTo {α : Type} (xs : List α) (k : Int) : List α :=
  if 0 ≤ k then xs.take k.toNat else xs.take (xs.length - (-k).toNat)

/-- Environment model of the HTTP call made by `list_reminders`: either
`requests.get` raises, or a response arrives whose JSON body is a list of
task objects. -/
inductive ListHttp where
  | exn (e : String)
  | resp (status : Nat) (items : List TaskJson)
deriving Repr, DecidableEq

/-- `VoiceAssistant.list_reminders` (bridge.py lines 122-167).  The query
parameters (`listParams project_id filter`) only shape the outbound request,
whose behaviour the `http` argument supplies; `raise_for_status()` on a
4xx/5xx response, a `RequestException`, and the missing-token `RuntimeError`
all raise out of the tool function, modelled as `Except.error`. -/
def list_reminders (tokenConfigured : Bool) (project_id : Option String)
    (filter : Option String) (limit : Option Int) (http : ListHttp) :
    Except String (List TaskRecord) :=
  if ¬ tokenConfigured then
    Except.error "RuntimeError: TODOIST_TOKEN not configured on server"
  else
    match http with
    | ListHttp.exn e => Except.error e
    | ListHttp.resp status items =>
        if 400 ≤ status ∧ status < 600 then
          Except.error ("HTTPError: status " ++ toString status)
        else
          Except.ok ((pySliceTo items (pyOr10 limit)).map toRecord)

/-- Environment model of the HTTP call made by `complete_reminder`. -/
inductive SimpleHttp where
  | exn (e : String)
  | resp (status : Nat)
deriving Repr, DecidableEq

/-- `VoiceAssistant.complete_reminder` (bridge.py lines 169-180).  The body
contains no try/except: the failed `assert`, a `RequestException` from
`requests.post`, and `raise_for_status()` on a 4xx/5xx response all raise
out of the tool function, modelled as `Except.error`. -/
def complete_reminder (tokenSet : Bool) (id : String) (http : SimpleHttp) :
    Except String String :=
  if ¬ tokenSet then Except.error "AssertionError: TODOIST_TOKEN not set"
  else
    match http with
    | SimpleHttp.exn e => Except.error e
    | SimpleHttp.resp status =>
        if 400 ≤ status ∧ status < 600 then
          Except.error ("HTTPError: status " ++ toString status)
        else
          Except.ok ("Done. Reminder " ++ id ++ " completed.")

/-- Observable side effects of `start_timer`: an announcement spoken into
the room (`context.say(...)`) or a suspension (`asyncio.sleep(seconds)`). -/
inductive TimerEvent where
  | say (msg : String)
  | wait (seconds : Int)
deriving Repr, DecidableEq

/-- `VoiceAssistant.start_timer` (bridge.py lines 182-192): the emitted side
effect trace paired with the returned string. -/
def start_timer (seconds : Int) : List TimerEvent × String :=
  if seconds < 1 ∨ seconds > 300 then
    ([], "Timers must be between 1 and 300 seconds.")
  else
    ([TimerEvent.say ("Timer started for " ++ toString seconds ++ " seconds."),
      TimerEvent.wait seconds,
      TimerEvent.say "Timer done."],
     "Timer finished after " ++ toString seconds ++ " seconds.")

/-- Room notification observed by the entrypoint's presence gate. -/
inductive RoomEvent where
  | participantConnected (identity : String)
deriving Repr, DecidableEq

/-- State of the presence gate: the `someone_present` asyncio event and how
many times `AgentSession(...)` has been constructed. -/
structure GateState where
  someone_present : Bool
  sessionCreates : Nat
deriving Repr, DecidableEq

/-- The `participant_connected` handler (bridge.py lines 219-223): sets the
event if it is not already set. -/
def onParticipantConnected (s : GateState) : GateState :=
  if s.someone_present then s else { s with someone_present := true }

/-- One construction of the realtime model session
(`AgentSession(llm=openai.realtime.RealtimeModel(...))`, lines 231-240). -/
def createSession (s : GateState) : GateState :=
  { s with sessionCreates := s.sessionCreates + 1 }

/-- Join notifications delivered after the session exists: the handler only
maintains the presence event; no further session is constructed. -/
def runEvents (s : GateState) : List RoomEvent → GateState
  | [] => s
  | RoomEvent.participantConnected _ :: rest =>
      runEvents (onParticipantConnected s) rest

/-- The entrypoint blocked on `await someone_present.wait()` (lines 226-228):
each join notification first runs the handler; once the event is set the
blocked coroutine resumes, the session is created, and remaining
notifications are handled with the session active. -/
def awaitPresence (s : GateState) : List RoomEvent → GateState
  | [] => s
  | RoomEvent.participantConnected _ :: rest =>
      let s1 := onParticipantConnected s
      if s1.someone_present then runEvents (createSession s1) rest
      else awaitPresence s1 rest

/-- `entrypoint` (bridge.py lines 208-240) restricted to its presence gate:
`initialCount` is `len(ctx.room.remote_participants)` at connect time and
`events` the subsequent join notifications in delivery order.  The event is
pre-set when participants are already present; otherwise the coroutine
blocks until the first join, and only then constructs the session. -/
def runEntrypoint (initialCount : Nat) (events : List RoomEvent) : GateState :=
  let s0 : GateState :=
    { someone_present := decide (0 < initialCount), sessionCreates := 0 }
  if s0.someone_present then runEvents (createSession s0) events
  else awaitPresence s0 events

/-- Sample task object used to evaluate the embedding at concrete inputs. -/
def sampleTask : TaskJson :=
  { id := some "1001", content := some "Water plants",
    due := some ⟨some "today"⟩, project_id := some "p1",
    priority := some 2, url := some "https://todoist.com/t/1001" }

/-- Second sample task object. -/
def sampleTask2 : TaskJson :=
  { id := some "1002", content := some "Pay rent", due := none,
    project_id := none, priority := some 4,
    url := some "https://todoist.com/t/1002" }

end Bridge

namespace TokenServer

/-- `VideoGrants(...)` as constructed by the token endpoint
(token_server.py lines 21-27): the five rights the credential carries. -/
structure VideoGrants where
  room_join : Bool
  room : String
  can_publish : Bool
  can_subscribe : Bool
  can_publish_data : Bool
deriving Repr, DecidableEq

/-- Payload of the minted access token: identity, TTL and grants.  The
signing itself (`to_jwt()` with the API key/secret) is performed by the
external livekit library; the credential is modelled by its payload. -/
structure AccessTokenData where
  identity : String
  ttlSeconds : Nat
  grants : VideoGrants
deriving Repr, DecidableEq

/-- JSON object returned by the endpoint (`jsonify({"token": ..., "room":
...})`, line 37). -/
structure TokenResponse where
  token : AccessTokenData
  room : String
deriving Repr, DecidableEq

/-- `token` (token_server.py lines 15-37): `body.get` defaults applied to
the request body's optional fields, grants built on the named room, TTL
fixed at `timedelta(hours=1)` = 3600 seconds. -/
def token (identity? : Option String) (room? : Option String) :
    TokenResponse :=
  let identity := identity?.getD "ios-user"
  let room := room?.getD "demo-room"
  let grants : VideoGrants :=
    { room_join := true, room := room, can_publish := true,
      can_subscribe := true, can_publish_data := true }
  { token := { identity := identity, ttlSeconds := 3600, grants := grants },
    room := room }

end TokenServer

section CreateTheorems

open Bridge

/-- Helper: the three-step priority sanitisation of `create_reminder`
(`priority or 1`, raise to 1, cap at 4) equals `clamp p 1 4` for every
integer `p`. -/
theorem buildBody_priority_clamp (text : String) (due project_id : Option String)
    (p : Int) :
    (buildBody text due project_id (some p)).priority = clamp p 1 4 := by
  simp only [buildBody, pyOr1, clamp]
  split_ifs <;> omega

/-- Helper: whenever the stripped content is non-empty, `create_reminder`
issues the HTTP request with exactly the sanitised body, on every outcome of
the call. -/
theorem create_reminder_request (content : String)
    (due project_id : Option String) (priority : Option Int)
    (http : CreateHttp) (hc : pyStrip content ≠ "") :
    (create_reminder (some content) due project_id priority http).request =
      some (buildBody (pyStrip content) due project_id priority) := by
  unfold create_reminder
  cases http with
  | exn e => simp [hc]
  | resp status err task => by_cases hs : status ≥ 400 <;> simp [hc, hs]

/-- C4: for every `create_reminder` call whose content argument is empty,
`None`, or consists only of whitespace, no external HTTP request is made and
the result is the fixed "need a description" rejection message — whatever the
other arguments and the external service would have done. -/
theorem create_reminder_empty_content (content due project_id : Option String)
    (priority : Option Int) (http : CreateHttp)
    (h : pyStrip (content.getD "") = "") :
    create_reminder content due project_id priority http =
      { request := none,
        result := "I need a task description (e.g., \x27Call Alice\x27)." } := by
  unfold create_reminder
  simp [h]

/-- Witness for C4 at a whitespace-only content. -/
theorem create_reminder_empty_content_witness :
    create_reminder (some "   ") (some "tomorrow") none (some 3)
        (CreateHttp.exn "connection refused") =
      { request := none,
        result := "I need a task description (e.g., \x27Call Alice\x27)." } :=
  create_reminder_empty_content (some "   ") (some "tomorrow") none (some 3)
    (CreateHttp.exn "connection refused") (by decide)

/-- C5: for every `create_reminder` call with an integer priority `p` and
non-empty content, the priority field of the body sent to the external
service equals `clamp p 1 4`; this holds on every outcome of the HTTP call. -/
theorem create_reminder_priority_clamped (content : String)
    (due project_id : Option String) (p : Int) (http : CreateHttp)
    (h : pyStrip content ≠ "") :
    (create_reminder (some content) due project_id (some p) http).request.map
        (fun b => b.priority) = some (clamp p 1 4) := by
  rw [create_reminder_request content due project_id (some p) http h]
  simp [buildBody_priority_clamp]

/-- Witness for C5 at priority 5: the service receives priority 4. -/
theorem create_reminder_priority_clamped_witness :
    (create_reminder (some "Call Alice") (some "tomorrow 9am") none (some 5)
        (CreateHttp.resp 200 ⟨none, ""⟩
          ⟨some "7001", some "Call Alice", some ⟨some "tomorrow 9am"⟩, none,
           some 4, some "https://todoist.com/t/7001"⟩)).request.map
        (fun b => b.priority) = some (clamp 5 1 4) :=
  create_reminder_priority_clamped "Call Alice" (some "tomorrow 9am") none 5
    (CreateHttp.resp 200 ⟨none, ""⟩
      ⟨some "7001", some "Call Alice", some ⟨some "tomorrow 9am"⟩, none,
       some 4, some "https://todoist.com/t/7001"⟩) (by decide)

/-- C6: for every `create_reminder` call (with non-empty content) where the
external service responds with status >= 400 and a JSON body whose `"error"`
field holds a non-empty explanation `e`, the call returns normally — the
total function yields a `CreateOutcome`, so no exception escapes the tool
handler — and its result is the error message carrying `e` verbatim. -/
theorem create_reminder_error_surfaced (content : String)
    (due project_id : Option String) (priority : Option Int)
    (status : Nat) (err : ErrInfo) (task : TaskJson) (e : String)
    (hc : pyStrip content ≠ "") (hs : 400 ≤ status)
    (he : err.error = some e) (hne : e ≠ "") :
    ∃ b, create_reminder (some content) due project_id priority
        (CreateHttp.resp status err task) =
      { request := some b,
        result := "Todoist rejected the request: " ++ e } := by
  unfold create_reminder
  simp [hc, hs, he, hne]

/-- Witness for C6: HTTP 400 with body error "invalid due date" yields the
error message containing that explanation. -/
theorem create_reminder_error_surfaced_witness :
    ∃ b, create_reminder (some "Call Alice") (some "blursday") none (some 1)
        (CreateHttp.resp 400 ⟨some "invalid due date", ""⟩
          ⟨none, none, none, none, none, none⟩) =
      { request := some b,
        result := "Todoist rejected the request: " ++ "invalid due date" } :=
  create_reminder_error_surfaced "Call Alice" (some "blursday") none (some 1)
    400 ⟨some "invalid due date", ""⟩ ⟨none, none, none, none, none, none⟩
    "invalid due date" (by decide) (by decide) rfl (by decide)

/-- C10: for every `create_reminder` call (with non-empty content) whose
priority is omitted or `None`, the body sent to the external service carries
priority 1; and the `due_string` / `project_id` fields are present in that
body exactly when the corresponding argument is present and not
whitespace-only. -/
theorem create_reminder_optional_fields (content : String)
    (due project_id : Option String) (http : CreateHttp)
    (hc : pyStrip content ≠ "") :
    ∃ b, (create_reminder (some content) due project_id none http).request
        = some b ∧
      b.priority = 1 ∧
      ((∃ d, due = some d ∧ pyStrip d ≠ "") ↔ b.due_string ≠ none) ∧
      ((∃ s, project_id = some s ∧ pyStrip s ≠ "") ↔ b.project_id ≠ none) := by
  have hdue : (∃ d, due = some d ∧ pyStrip d ≠ "") ↔
      truthyStrip due ≠ none := by
    cases due with
    | none => simp [truthyStrip]
    | some d => by_cases hd : pyStrip d = "" <;> simp [truthyStrip, hd]
  have hpid : (∃ s, project_id = some s ∧ pyStrip s ≠ "") ↔
      truthyStrip project_id ≠ none := by
    cases project_id with
    | none => simp [truthyStrip]
    | some s => by_cases hs : pyStrip s = "" <;> simp [truthyStrip, hs]
  exact ⟨buildBody (pyStrip content) due project_id none,
    create_reminder_request content due project_id none http hc,
    rfl, hdue, hpid⟩

/-- Witness for C10: omitted priority becomes 1; a whitespace-only due is
dropped while a real project id is kept. -/
theorem create_reminder_optional_fields_witness :
    ∃ b, (create_reminder (some "Buy milk") (some "   ") (some "p42") none
        (CreateHttp.exn "timeout")).request = some b ∧
      b.priority = 1 ∧
      ((∃ d, (some "   " : Option String) = some d ∧ pyStrip d ≠ "") ↔
        b.due_string ≠ none) ∧
      ((∃ s, (some "p42" : Option String) = some s ∧ pyStrip s ≠ "") ↔
        b.project_id ≠ none) :=
  create_reminder_optional_fields "Buy milk" (some "   ") (some "p42")
    (CreateHttp.exn "timeout") (by decide)

end CreateTheorems

section BridgeTheorems

open Bridge

/-- C1: refuted on the code — `complete_reminder` wraps nothing in
try/except, so a 404 from the external service makes `raise_for_status()`
raise out of the tool function and a network-level failure propagates the
`RequestException`, instead of being caught locally and returned as an
error-flagged ToolResult. -/
theorem complete_reminder_404_raises :
    complete_reminder true "123" (SimpleHttp.resp 404) =
      Except.error "HTTPError: status 404" ∧
    complete_reminder true "123" (SimpleHttp.exn "connection timed out") =
      Except.error "connection timed out" := by
  constructor <;> rfl

/-- C2: refuted as stated — with `limit = 0` (an integer the claim covers)
the code computes `items[:(0 or 10)] = items[:10]` because `0` is falsy, so
a one-task response comes back whole even though the claim requires a
sequence of length at most 0. -/
theorem list_reminders_limit_zero_cex :
    ¬ (∀ recs, list_reminders true none none (some 0)
          (ListHttp.resp 200 [sampleTask]) = Except.ok recs →
        recs.length ≤ 0) := by
  intro h
  exact absurd (h [toRecord sampleTask] rfl) (by decide)

/-- C2 (amended): on a successful list call every returned element carries
`completed = false` (together with the seven record fields); the length is
at most `N` when `limit = N ≥ 1`; an absent or zero limit falls back to the
default 10; a negative limit is passed to the Python slice and returns all
but the last `-N` elements. -/
theorem list_reminders_limit_bound (project_id filter : Option String)
    (limit : Option Int) (status : Nat) (items : List TaskJson)
    (recs : List TaskRecord) (hst : status < 400)
    (h : list_reminders true project_id filter limit
        (ListHttp.resp status items) = Except.ok recs) :
    (∀ r ∈ recs, r.completed = false) ∧
    (∀ N : Int, limit = some N → 1 ≤ N → recs.length ≤ N.toNat) ∧
    ((limit = none ∨ limit = some 0) → recs.length ≤ 10) ∧
    (∀ N : Int, limit = some N → N < 0 →
      recs.length = items.length - (-N).toNat) := by
  have hns : ¬ (400 ≤ status ∧ status < 600) := by omega
  unfold list_reminders at h
  simp [hns] at h
  subst h
  refine ⟨?_, ?_, ?_, ?_⟩
  · intro r hr
    simp only [List.mem_map] at hr
    obtain ⟨t, _, rfl⟩ := hr
    rfl
  · intro N hN h1
    subst hN
    have hNz : N ≠ 0 := by omega
    simp only [List.length_map, pySliceTo, pyOr10, if_neg hNz,
      if_pos (by omega : (0:Int) ≤ N), List.length_take]
    omega
  · intro hl
    rcases hl with hl | hl <;> subst hl <;>
      simp [pySliceTo, pyOr10, List.length_take]
  · intro N hN hneg
    subst hN
    have hNz : N ≠ 0 := by omega
    simp only [List.length_map, pySliceTo, pyOr10, if_neg hNz,
      if_neg (by omega : ¬ (0:Int) ≤ N), List.length_take]
    omega

/-- Witness for C2 (amended) at `limit = 1` on a two-task response. -/
theorem list_reminders_limit_bound_witness :
    (∀ r ∈ [toRecord sampleTask], r.completed = false) ∧
    (∀ N : Int, (some (1:Int) : Option Int) = some N → 1 ≤ N →
      [toRecord sampleTask].length ≤ N.toNat) ∧
    (((some (1:Int) : Option Int) = none ∨
        (some (1:Int) : Option Int) = some 0) →
      [toRecord sampleTask].length ≤ 10) ∧
    (∀ N : Int, (some (1:Int) : Option Int) = some N → N < 0 →
      [toRecord sampleTask].length =
        [sampleTask, sampleTask2].length - (-N).toNat) :=
  list_reminders_limit_bound none none (some 1) 200 [sampleTask, sampleTask2]
    [toRecord sampleTask] (by decide) rfl

/-- C3: for every `start_timer` call with `seconds` outside `[1, 300]` the
trace of side effects is empty — no announcement, no wait — and the result
is the fixed rejection message; for `seconds` inside `[1, 300]` the trace is
exactly the start announcement, the wait of that duration, and the done
announcement, and the result is the completion string. -/
theorem start_timer_spec (s : Int) :
    (¬ (1 ≤ s ∧ s ≤ 300) →
      start_timer s = ([], "Timers must be between 1 and 300 seconds.")) ∧
    (1 ≤ s ∧ s ≤ 300 →
      start_timer s =
        ([TimerEvent.say ("Timer started for " ++ toString s ++ " seconds."),
          TimerEvent.wait s, TimerEvent.say "Timer done."],
         "Timer finished after " ++ toString s ++ " seconds.")) := by
  constructor
  · intro h
    unfold start_timer
    rw [if_pos (by omega : s < 1 ∨ s > 300)]
  · intro h
    unfold start_timer
    rw [if_neg (by omega : ¬ (s < 1 ∨ s > 300))]

/-- Witness for C3 at `seconds = 0` (rejection, empty trace) and
`seconds = 5` (start announcement, wait, done announcement). -/
theorem start_timer_spec_witness :
    start_timer 0 = ([], "Timers must be between 1 and 300 seconds.") ∧
    start_timer 5 =
      ([TimerEvent.say
          ("Timer started for " ++ toString (5:Int) ++ " seconds."),
        TimerEvent.wait 5, TimerEvent.say "Timer done."],
       "Timer finished after " ++ toString (5:Int) ++ " seconds.") :=
  ⟨(start_timer_spec 0).1 (by decide), (start_timer_spec 5).2 (by decide)⟩

/-- Helper: delivering join notifications with the session already active
never constructs another session. -/
theorem runEvents_sessionCreates (es : List RoomEvent) (s : GateState) :
    (runEvents s es).sessionCreates = s.sessionCreates := by
  induction es generalizing s with
  | nil => rfl
  | cons e rest ih =>
      cases e with
      | participantConnected p =>
          rw [runEvents, ih]
          unfold onParticipantConnected
          split <;> rfl

/-- C7: presence gate — over every room lifetime (initial remote-participant
count plus the join notifications delivered afterwards), the realtime model
session is constructed exactly once as soon as presence exists, and zero
times while the room stays empty: with no initial participant and no join
the session is never created. -/
theorem presence_gate_once (initialCount : Nat)
    (events : List RoomEvent) :
    (runEntrypoint initialCount events).sessionCreates =
      if initialCount = 0 ∧ events = [] then 0 else 1 := by
  unfold runEntrypoint
  by_cases h0 : 0 < initialCount
  · rw [if_neg (by omega : ¬ (initialCount = 0 ∧ events = []))]
    simp [decide_eq_true h0, runEvents_sessionCreates, createSession]
  · have hz : initialCount = 0 := by omega
    subst hz
    cases events with
    | nil => rfl
    | cons e rest =>
        cases e with
        | participantConnected p =>
            simp [awaitPresence, onParticipantConnected, createSession,
              runEvents_sessionCreates]

end BridgeTheorems

section TokenTheorems

/-- C8: for every token request carrying an identity and a room, the
response names that room, and the minted credential carries the requested
identity, a fixed TTL of 3600 seconds (1 hour), and join, publish,
subscribe and publish-data rights on that same room. -/
theorem token_grants_and_ttl (identity room : String) :
    (TokenServer.token (some identity) (some room)).room = room ∧
    (TokenServer.token (some identity) (some room)).token.identity =
      identity ∧
    (TokenServer.token (some identity) (some room)).token.ttlSeconds =
      3600 ∧
    (TokenServer.token (some identity) (some room)).token.grants =
      { room_join := true, room := room, can_publish := true,
        can_subscribe := true, can_publish_data := true } :=
  ⟨rfl, rfl, rfl, rfl⟩

/-- C9: a request body omitting the identity defaults it to "ios-user", one
omitting the room defaults it to "demo-room" (also inside the grants), and
for every request the room named in the response equals the room named in
the credential's grants. -/
theorem token_defaults (identity? room? : Option String) :
    (TokenServer.token none room?).token.identity = "ios-user" ∧
    (TokenServer.token identity? none).room = "demo-room" ∧
    (TokenServer.token identity? none).token.grants.room = "demo-room" ∧
    (TokenServer.token identity? room?).room =
      (TokenServer.token identity? room?).token.grants.room :=
  ⟨rfl, rfl, rfl, rfl⟩

end TokenTheorems
